import Mathlib

/-!
Verification of the RMQ service core (src/lib/rmq.service.ts) against its
natural-language specification.  The TypeScript class is shallowly embedded:
pure route matching becomes Lean functions on strings, the asynchronous
send/timeout race becomes an explicit state machine over settlement events,
and the publish paths become action traces.  Modules of the repository that
are not under src/ (the constants file, the error service, the publish
options interface) are modelled from the spec and marked as such.
-/

namespace Rmq

/-! ## Topic matcher (rmq.service.ts, getRouteByTopic, lines 269-277)

The source builds, per route, the regex string
`'^' + route.replace(/\*/g, '([^.]+)').replace(/#/g, '([^.]+\.?)+') + '$'`
and tests `topic.search(regexString) !== -1`.  Note that in a JavaScript
string literal `'\.'` is just `'.'`, so the `#` replacement is the regex
`([^.]+.?)+`, and the dots of the route itself are never escaped: in the
resulting regex a route dot is the any-character metacharacter.  We embed
the regex language with a small syntax and Brzozowski derivatives. -/

/-- Regular expressions over characters: empty language, empty string, the
any-character metacharacter `.`, a literal character, the class `[^.]`,
alternation, concatenation, Kleene star. -/
inductive RE where
  | emp : RE
  | eps : RE
  | anyc : RE
  | chr : Char → RE
  | notDot : RE
  | alt : RE → RE → RE
  | cat : RE → RE → RE
  | star : RE → RE
deriving DecidableEq

/-- Language-preserving smart alternation (keeps derivative terms small). -/
def mkAlt : RE → RE → RE
  | .emp, b => b
  | a, .emp => a
  | a, b => .alt a b

/-- Language-preserving smart concatenation (keeps derivative terms small). -/
def mkCat : RE → RE → RE
  | .emp, _ => .emp
  | _, .emp => .emp
  | .eps, b => b
  | a, .eps => a
  | a, b => .cat a b

/-- Does the regex accept the empty string? -/
def nullable : RE → Bool
  | .emp => false
  | .eps => true
  | .anyc => false
  | .chr _ => false
  | .notDot => false
  | .alt a b => nullable a || nullable b
  | .cat a b => nullable a && nullable b
  | .star _ => true

/-- Brzozowski derivative of a regex by one character. -/
def deriv : RE → Char → RE
  | .emp, _ => .emp
  | .eps, _ => .emp
  | .anyc, _ => .eps
  | .chr d, c => if c = d then .eps else .emp
  | .notDot, c => if c = '.' then .emp else .eps
  | .alt a b, c => mkAlt (deriv a c) (deriv b c)
  | .cat a b, c =>
      if nullable a then mkAlt (mkCat (deriv a c) b) (deriv b c)
      else mkCat (deriv a c) b
  | .star a, c => mkCat (deriv a c) (.star a)

/-- Whole-string regex matching (the source anchors the regex with `^` and
`$`, so `topic.search(regexString) !== -1` is whole-string matching). -/
def reMatch (r : RE) (s : List Char) : Bool := nullable (s.foldl deriv r)

/-- One-or-more repetitions, `r+` as `r r*`. -/
def rePlus (r : RE) : RE := .cat r (.star r)

/-- Zero-or-one repetition, `r?`. -/
def reOpt (r : RE) : RE := .alt r .eps

/-- The regex a single route character compiles to, following the source's
replacements: `*` becomes `([^.]+)`, `#` becomes `([^.]+.?)+` (the backslash
before the dot is consumed by the JavaScript string literal, so the dot is
the metacharacter), and every other character is left as-is in the regex
string — in particular a route dot is the any-character metacharacter.
The model covers routes whose remaining characters carry no other regex
metacharacter (true of all routes in the claims). -/
def compileToken (c : Char) : RE :=
  if c = '*' then rePlus .notDot
  else if c = '#' then rePlus (.cat (rePlus .notDot) (reOpt .anyc))
  else if c = '.' then .anyc
  else .chr c

/-- The compiled matcher of a route pattern (the anchored regex the source
builds per route). -/
def compileRoute (route : String) : RE :=
  (route.toList.map compileToken).foldr RE.cat .eps

/-- The predicate of `routes.find(...)`: exact string equality first, then
the compiled regex evaluated against the incoming routing key. -/
def routeMatches (route topic : String) : Bool :=
  if route == topic then true else reMatch (compileRoute route) topic.toList

/-- Resolution, `getRouteByTopic`: first route (in registration order) whose predicate
accepts the topic, or none. -/
def getRouteByTopic (routes : List String) (topic : String) : Option String :=
  routes.find? (fun route => routeMatches route topic)

/-- Split a character list into its dot-delimited segments. -/
def splitDots : List Char → List (List Char)
  | [] => [[]]
  | c :: rest =>
    match splitDots rest with
    | [] => [[c]]
    | s :: ss => if c = '.' then [] :: s :: ss else (c :: s) :: ss

/-- Matcher following the claim's words, for comparison with the code's
matcher: the pattern and the topic are split on dots; a `*` segment matches
exactly one topic segment, a `#` segment matches one-or-more topic segments,
and every other pattern segment must equal the topic segment literally. -/
def specSegMatch : List (List Char) → List (List Char) → Bool
  | [], ts => ts.isEmpty
  | p :: ps, ts =>
    if p = ['#'] then
      (List.range ts.length).any (fun k => specSegMatch ps (ts.drop (k + 1)))
    else
      match ts with
      | [] => false
      | t :: ts2 => (p = ['*'] || p = t) && specSegMatch ps ts2

/-- Whole-pattern matching under the claim's stated semantics. -/
def specResolveMatch (pattern topic : String) : Bool :=
  specSegMatch (splitDots pattern.toList) (splitDots topic.toList)

/-! ## Errors and constants

The constants module and the error service of the repository are not under
src/; they are modelled from the spec below and marked as such.  The shapes
that ARE in src/lib/rmq.service.ts — the timeout message template, the
`-x-error` header check, which error is raised where — are taken from the
source. -/

/-- The spec's error taxonomy discriminator: transport errors versus
application errors (spec section 7). -/
inductive ErrType where
  | transport
  | application
deriving DecidableEq

/-- The RMQError class: a message plus an error-type discriminator. -/
structure RMQError where
  message : String
  type : ErrType
deriving DecidableEq

/-- Modelled from the spec: the constants module is not under src/; the spec
calls this the transport "no route" error raised when no pattern matches an
incoming routing key. -/
def ERROR_NO_ROUTE : String := "no route"

/-- Modelled from the spec: the constants module is not under src/; the spec
calls this the "no content produced" error raised on an empty reply payload. -/
def ERROR_NONE_RPC : String := "no content produced"

/-- Modelled from the spec: the constants module is not under src/; the spec
calls this the transport timeout error marker. -/
def ERROR_TIMEOUT : String := "timed out"

/-- The timeout rejection message, mirroring the source template
`ERROR_TIMEOUT: timeout while sending to topic` (rmq.service.ts line 104). -/
def timeoutMessage (timeout : Nat) (topic : String) : String :=
  ERROR_TIMEOUT ++ ": " ++ toString timeout ++ " while sending to " ++ topic

/-- Reply headers: the `-x-error` marker and an error-type discriminator.
The discriminator field is modelled from the spec ("an error-type
discriminator plus a message" encoded into reply headers). -/
structure Headers where
  xError : Option String
  xType : Option ErrType
deriving DecidableEq

/-- Modelled from the spec: `RmqErrorService.buildError` is not under src/;
per the spec, errors are encoded into reply headers as an error-type
discriminator plus a message, and a success reply carries no error marker. -/
def buildError : Option RMQError → Headers
  | none => ⟨none, none⟩
  | some e => ⟨some e.message, some e.type⟩

/-- A message delivered on the reply queue: correlation id, headers, and the
payload bytes as a string (`msg.content.toString()`). -/
structure ReplyMsg where
  correlationId : String
  headers : Headers
  content : String
deriving DecidableEq

/-- The source's error check `msg.properties?.headers?.['-x-error']`
(line 108): JavaScript truthiness of the header value, i.e. present and not
the empty string. -/
def hasErrorHeader (h : Headers) : Bool :=
  match h.xError with
  | some s => !(s == "")
  | none => false

/-- Modelled from the spec: `RmqErrorService.errorHandler` is not under
src/; per the spec it decodes the application/transport error carried by the
reply headers. -/
def errorHandler (msg : ReplyMsg) : RMQError :=
  ⟨msg.headers.xError.getD "", msg.headers.xType.getD .transport⟩

/-! ## The send settlement state machine (rmq.service.ts, send, lines 98-128)

`send` creates a promise, starts a timeout timer rejecting with the
transport timeout error, registers a once-listener on the reply emitter for
the generated correlation id, and publishes.  The JavaScript promise settles
at most once: later resolve/reject calls are no-ops.  We model the promise
state, whether the timer is still pending, and whether the once-listener is
still registered, and drive the state by the two completion events. -/

/-- A JavaScript promise: pending, resolved, or rejected; `resolvedPayload c`
stands for `resolve(JSON.parse(c))`, keeping the raw payload string. -/
inductive PromiseState where
  | pending
  | resolvedPayload (content : String)
  | rejected (e : RMQError)
deriving DecidableEq

/-- Settlement attempt: a JavaScript promise keeps its first settlement. -/
def settle (p : PromiseState) (out : PromiseState) : PromiseState :=
  match p with
  | .pending => out
  | s => s

/-- Is the promise settled? -/
def isSettled : PromiseState → Bool
  | .pending => false
  | _ => true

/-- The body of the once-listener (lines 106-118): clear the timer; if the
reply headers carry the error marker, reject with the decoded error (the
source does not return here and falls through); then if the payload is
non-empty resolve with the deserialized payload, else reject with the
"no content produced" transport error. -/
def onReplyListener (msg : ReplyMsg) (p : PromiseState) : PromiseState :=
  let p1 := if hasErrorHeader msg.headers then settle p (.rejected (errorHandler msg)) else p
  if msg.content == "" then settle p1 (.rejected ⟨ERROR_NONE_RPC, .transport⟩)
  else settle p1 (.resolvedPayload msg.content)

/-- State of one pending `send`: the promise, whether the timeout timer is
still pending, and whether the once-listener for the correlation id is still
registered on the reply emitter. -/
structure SendState where
  promise : PromiseState
  timerActive : Bool
  listenerActive : Bool
deriving DecidableEq

/-- The two completion events racing for a pending `send`. -/
inductive SendEvent where
  | timeoutFires
  | replyArrives (msg : ReplyMsg)
deriving DecidableEq

/-- One completion event.  A cleared timer does not fire (`clearTimeout`);
the timeout handler (lines 103-105) rejects with the transport timeout
error and does not touch the listener.  An emitted reply fires the listener
only while it is registered; `emitter.once` removes it on firing, and the
listener body clears the timer (line 107) and runs the settlement attempts. -/
def sendStep (timeout : Nat) (topic : String) (s : SendState) : SendEvent → SendState
  | .timeoutFires =>
    if s.timerActive then
      { s with
        timerActive := false,
        promise := settle s.promise (.rejected ⟨timeoutMessage timeout topic, .transport⟩) }
    else s
  | .replyArrives msg =>
    if s.listenerActive then
      { promise := onReplyListener msg s.promise, timerActive := false, listenerActive := false }
    else s

/-- Run a sequence of completion events. -/
def sendRun (timeout : Nat) (topic : String) (s : SendState) (evs : List SendEvent) : SendState :=
  evs.foldl (sendStep timeout topic) s

/-- The state right after `send` publishes: promise pending, timer armed,
listener registered. -/
def sendInit : SendState := ⟨.pending, true, true⟩

/-- The timeout chain `options?.timeout ?? this.options.messagesTimeout ??
DEFAULT_TIMEOUT` (line 102). -/
def pickTimeout (optTimeout instTimeout : Option Nat) (defaultTimeout : Nat) : Nat :=
  optTimeout.getD (instTimeout.getD defaultTimeout)

/-! ## Publish options, publish properties and client action traces
(rmq.service.ts, send lines 119-125 and notify lines 130-138)

The publish-options interface is not under src/; it is modelled from the
spec's broker wire protocol section, which names the message properties
`correlationId`, `replyTo`, `appId`, `timestamp` plus the per-call
`timeout`.  A `none` field stands for an absent key, so the object spread
`{ generated..., ...options }` keeps a generated field exactly when the
options carry no key for it. -/

/-- Modelled from the spec: the publish-options interface file is not under
src/; fields follow the spec's recognized message properties plus the
per-call timeout. -/
structure PublishOptions where
  timeout : Option Nat := none
  correlationId : Option String := none
  replyTo : Option String := none
  appId : Option String := none
  timestamp : Option Nat := none
deriving DecidableEq

/-- The message properties a publish call carries. -/
structure PublishProps where
  correlationId : Option String
  replyTo : Option String
  appId : Option String
  timestamp : Option Nat
deriving DecidableEq

/-- The properties object of `send`'s publish (lines 119-125): generated
`replyTo`, `appId`, `timestamp`, `correlationId`, then `...options` spread
last, so an options key overrides the generated field. -/
def sendPublishProps (replyQueue serviceName : String) (now : Nat) (cid : String)
    (opts : PublishOptions) : PublishProps :=
  { correlationId := some (opts.correlationId.getD cid),
    replyTo := some (opts.replyTo.getD replyQueue),
    appId := some (opts.appId.getD serviceName),
    timestamp := some (opts.timestamp.getD now) }

/-- The properties object of `notify`'s publish (lines 132-136): only
`appId` and `timestamp` are generated, then `...options` spread last; no
correlation id and no reply queue are generated. -/
def notifyPublishProps (serviceName : String) (now : Nat) (opts : PublishOptions) : PublishProps :=
  { correlationId := opts.correlationId,
    replyTo := opts.replyTo,
    appId := some (opts.appId.getD serviceName),
    timestamp := some (opts.timestamp.getD now) }

/-- Serialization, `JSON.stringify`, restricted to the plain string payloads used in the
claims (no escape-needing characters). -/
def jsonStringifyStr (s : String) : String := "\"" ++ s ++ "\""

/-- Observable actions of the RPC client core. -/
inductive ClientAction where
  | publishToExchange (exchange topic content : String) (props : PublishProps)
  | registerReplyListener (correlationId : String)
  | startTimer (timeout : Nat)
deriving DecidableEq

/-- The action trace of `send` after the initialization barrier (lines
101-126, in source order): arm the timeout timer, register the
once-listener under the generated correlation id, publish with the spread
properties. -/
def sendActions (exchangeName replyQueue serviceName : String) (now : Nat)
    (cid topic message : String) (instTimeout : Option Nat) (defaultTimeout : Nat)
    (opts : PublishOptions) : List ClientAction :=
  [ .startTimer (pickTimeout opts.timeout instTimeout defaultTimeout),
    .registerReplyListener cid,
    .publishToExchange exchangeName topic (jsonStringifyStr message)
      (sendPublishProps replyQueue serviceName now cid opts) ]

/-- The action trace of `notify` after the initialization barrier (lines
132-137): a single publish, no timer, no listener. -/
def notifyActions (exchangeName serviceName : String) (now : Nat)
    (topic message : String) (opts : PublishOptions) : List ClientAction :=
  [ .publishToExchange exchangeName topic (jsonStringifyStr message)
      (notifyPublishProps serviceName now opts) ]

/-- The reply-queue consumer (lines 195-203) emits each message under its
correlation id; a once-listener registered under `registeredId` fires for it
exactly when the ids coincide. -/
def onceListenerFires (registeredId incomingId : String) : Bool :=
  registeredId == incomingId

/-! ## Dispatch and reply (rmq.service.ts, listen lines 210-230 and reply
lines 258-267) -/

/-- An inbound message on the work queue: routing key, reply-to address,
correlation id, payload. -/
structure InboundMsg where
  routingKey : String
  replyTo : String
  correlationId : String
  content : String
deriving DecidableEq

/-- The ordered middleware chain applied to an inbound message
(useMiddleware, lines 279-287): fold of the configured transforms; an empty
chain is the identity. -/
def useMiddleware (mws : List (InboundMsg → InboundMsg)) (msg : InboundMsg) : InboundMsg :=
  mws.foldl (fun m f => f m) msg

/-- The ordered interceptor chain applied to an outgoing reply result
(intercept, lines 289-297): fold of the configured transforms; an empty
chain is the identity. -/
def intercept (ics : List (String → InboundMsg → Option RMQError → String))
    (res : String) (msg : InboundMsg) (err : Option RMQError) : String :=
  ics.foldl (fun r f => f r msg err) res

/-- What the dispatch core does with one inbound message. -/
inductive DispatchAction where
  | emitToHandler (route : String) (msg : InboundMsg)
  | sendReplyToQueue (queue content : String) (correlationId : String) (headers : Headers)
deriving DecidableEq

/-- The reply operation, `reply(res, msg, error)` (lines 258-267): run the interceptors, then
send the serialized result to `msg.properties.replyTo` with the message's
correlation id and the headers built from the error. -/
def replyAction (ics : List (String → InboundMsg → Option RMQError → String))
    (res : String) (msg : InboundMsg) (err : Option RMQError) : DispatchAction :=
  .sendReplyToQueue msg.replyTo (jsonStringifyStr (intercept ics res msg err))
    msg.correlationId (buildError err)

/-- The work-queue consumer body (lines 218-227): resolve the routing key
against the registered routes; on a match run the middleware and emit to the
route's handler; otherwise reply with the transport "no route" error. -/
def handleInbound (routes : List String) (mws : List (InboundMsg → InboundMsg))
    (ics : List (String → InboundMsg → Option RMQError → String))
    (msg : InboundMsg) : DispatchAction :=
  match getRouteByTopic routes msg.routingKey with
  | some route => .emitToHandler route (useMiddleware mws msg)
  | none => replyAction ics "" msg (some ⟨ERROR_NO_ROUTE, .transport⟩)

/-- The reply message the original caller's reply consumer receives for a
dispatched reply action, assuming broker pass-through of payload, id and
headers. -/
def deliveredReply (content : String) (correlationId : String) (headers : Headers) : ReplyMsg :=
  ⟨correlationId, headers, content⟩

/-! ## Reply-pipeline emitters (rmq.service.ts, lines 242-256)

`attachEmitters` registers, with `.on`, one listener for each of the three
reply-pipeline event kinds (success, error, ack) — without removing existing
ones; `detachEmitters` removes all listeners.  `onConnect` calls
`attachEmitters`, `onDisconnect` calls `detachEmitters`.  We track the
number of registered listeners per event kind. -/

/-- Listener counts of the response emitter, one per event kind. -/
structure EmitterState where
  success : Nat
  error : Nat
  ack : Nat
deriving DecidableEq

/-- Attach, `attachEmitters` (lines 246-256): `.on` adds one listener per kind. -/
def attachEmitters (s : EmitterState) : EmitterState :=
  ⟨s.success + 1, s.error + 1, s.ack + 1⟩

/-- Detach, `detachEmitters` (lines 242-244): `removeAllListeners`. -/
def detachEmitters (_ : EmitterState) : EmitterState := ⟨0, 0, 0⟩

/-- Connection lifecycle events observed by the supervisor. -/
inductive ConnEvent where
  | connect
  | disconnect
deriving DecidableEq

/-- The connect handler attaches (line 76), the disconnect handler detaches
(line 80). -/
def connStep (s : EmitterState) : ConnEvent → EmitterState
  | .connect => attachEmitters s
  | .disconnect => detachEmitters s

/-- Run a sequence of connection events over the emitter state. -/
def connRun (s : EmitterState) (evs : List ConnEvent) : EmitterState :=
  evs.foldl connStep s

/-- Event sequences in which no connect fires while already attached
(connects and disconnects alternate); the flag is "currently attached". -/
def alternates : Bool → List ConnEvent → Bool
  | _, [] => true
  | a, .connect :: r => !a && alternates true r
  | _, .disconnect :: r => alternates false r

/-- Whether the last lifecycle event left the listeners attached. -/
def attachedAfter : Bool → List ConnEvent → Bool
  | a, [] => a
  | _, .connect :: r => attachedAfter true r
  | _, .disconnect :: r => attachedAfter false r

/-- The emitter state corresponding to an attached flag: exactly one
listener per kind when attached, none otherwise. -/
def emitterOf (a : Bool) : EmitterState := if a then ⟨1, 1, 1⟩ else ⟨0, 0, 0⟩

/-! ## Initialization barrier (rmq.service.ts, initializationCheck lines
299-309, onModuleInit lines 58-61)

`initializationCheck` returns at once when `isInitialized` is set, else
awaits a fixed short delay and recurses.  Time is counted in polling steps
of one fixed delay each; `flagAt t` is the value of `isInitialized` at the
t-th poll; the fuel bounds how far we unroll the loop.  The result is the
poll index at which the flag was observed set. -/

/-- The busy-poll barrier: check the flag, else wait one fixed delay and
check again. -/
def initializationCheck (flagAt : Nat → Bool) : Nat → Nat → Option Nat
  | 0, _ => none
  | fuel + 1, t => if flagAt t then some t else initializationCheck flagAt fuel (t + 1)

/-- A gated client call (`send` and `notify` both await
`initializationCheck` before publishing, lines 100 and 131): the actions run
at the poll index where the barrier opened, and not at all within the
explored window otherwise. -/
def gatedActions (flagAt : Nat → Bool) (fuel t : Nat) (acts : List ClientAction) :
    Option (Nat × List ClientAction) :=
  (initializationCheck flagAt fuel t).map (fun tDone => (tDone, acts))

/-! ## Helper lemmas -/

theorem settle_of_settled (p : PromiseState) (h : p ≠ .pending) (out : PromiseState) :
    settle p out = p := by
  cases p with
  | pending => exact absurd rfl h
  | resolvedPayload c => rfl
  | rejected e => rfl

theorem onReplyListener_of_settled (msg : ReplyMsg) (p : PromiseState) (h : p ≠ .pending) :
    onReplyListener msg p = p := by
  unfold onReplyListener
  cases hh : hasErrorHeader msg.headers <;>
    cases hc : msg.content == "" <;>
      simp [hh, hc, settle_of_settled p h]

theorem sendStep_promise_of_settled (timeout : Nat) (topic : String) (s : SendState)
    (e : SendEvent) (h : s.promise ≠ .pending) :
    (sendStep timeout topic s e).promise = s.promise := by
  cases e with
  | timeoutFires =>
    unfold sendStep
    cases ht : s.timerActive <;> simp [ht, settle_of_settled s.promise h]
  | replyArrives msg =>
    unfold sendStep
    cases hl : s.listenerActive <;> simp [hl, onReplyListener_of_settled msg s.promise h]

theorem sendRun_promise_of_settled (timeout : Nat) (topic : String) (s : SendState)
    (evs : List SendEvent) (h : s.promise ≠ .pending) :
    (sendRun timeout topic s evs).promise = s.promise := by
  induction evs generalizing s with
  | nil => rfl
  | cons e r ih =>
    have h1 := sendStep_promise_of_settled timeout topic s e h
    have h2 : (sendStep timeout topic s e).promise ≠ .pending := by rw [h1]; exact h
    calc (sendRun timeout topic s (e :: r)).promise
        = (sendRun timeout topic (sendStep timeout topic s e) r).promise := rfl
      _ = (sendStep timeout topic s e).promise := ih _ h2
      _ = s.promise := h1

theorem isSettled_onReplyListener (msg : ReplyMsg) :
    isSettled (onReplyListener msg .pending) = true := by
  unfold onReplyListener
  cases hh : hasErrorHeader msg.headers <;>
    cases hc : msg.content == "" <;>
      simp [hh, hc, settle, isSettled]

theorem isSettled_first_event (timeout : Nat) (topic : String) (e : SendEvent) :
    isSettled (sendStep timeout topic sendInit e).promise = true := by
  cases e with
  | timeoutFires => rfl
  | replyArrives msg =>
    show isSettled (onReplyListener msg .pending) = true
    exact isSettled_onReplyListener msg

theorem find?_some_split {α : Type} (p : α → Bool) (l : List α) (a : α)
    (h : l.find? p = some a) :
    ∃ pre post, l = pre ++ a :: post ∧ p a = true ∧ ∀ x ∈ pre, p x = false := by
  induction l with
  | nil => simp [List.find?] at h
  | cons b t ih =>
    cases hb : p b with
    | true =>
      rw [List.find?_cons_of_pos _ hb] at h
      cases h
      exact ⟨[], t, rfl, hb, by intro x hx; simp at hx⟩
    | false =>
      rw [List.find?_cons_of_neg _ (by simp [hb])] at h
      obtain ⟨pre, post, heq, hpa, hpre⟩ := ih h
      refine ⟨b :: pre, post, by rw [heq]; rfl, hpa, ?_⟩
      intro x hx
      rcases List.mem_cons.mp hx with hx | hx
      · rw [hx]; exact hb
      · exact hpre x hx

/-! ## Claim theorems -/

/-- C1: for every call to `send`, the pending request is settled exactly
once: the first of the two completion events (reply arrival, timeout firing)
settles the promise, and no sequence of later completion events changes the
settlement, whichever event fired first. -/
theorem send_settles_exactly_once (timeout : Nat) (topic : String) (e : SendEvent)
    (evs : List SendEvent) :
    isSettled (sendStep timeout topic sendInit e).promise = true ∧
    (sendRun timeout topic (sendStep timeout topic sendInit e) evs).promise =
      (sendStep timeout topic sendInit e).promise := by
  have h1 := isSettled_first_event timeout topic e
  refine ⟨h1, sendRun_promise_of_settled _ _ _ _ ?_⟩
  intro hp
  rw [hp] at h1
  simp [isSettled] at h1

/-- C3 counterexample: the claim says that after the timeout fires no
listener for the correlation id remains registered, but firing the timeout
leaves the once-listener registered (the timeout handler, lines 103-105,
only rejects and never deregisters the reply listener). -/
theorem timeout_leaves_listener_registered :
    (sendStep 1 "a" sendInit .timeoutFires).listenerActive = true := rfl

/-- C3 (amended): when the reply arrives first, both the listener and the
timer are removed and the subsequent timeout firing is a no-op; when the
timeout fires first, the timer is consumed and the promise rejected, but the
listener for the correlation id remains registered; a late reply then
removes the listener (once-semantics) without changing the settlement. -/
theorem settlement_path_cleanup (timeout : Nat) (topic : String) (msg : ReplyMsg) :
    (sendStep timeout topic sendInit (.replyArrives msg)).listenerActive = false ∧
    (sendStep timeout topic sendInit (.replyArrives msg)).timerActive = false ∧
    sendStep timeout topic (sendStep timeout topic sendInit (.replyArrives msg)) .timeoutFires
      = sendStep timeout topic sendInit (.replyArrives msg) ∧
    (sendStep timeout topic sendInit .timeoutFires).timerActive = false ∧
    (sendStep timeout topic sendInit .timeoutFires).listenerActive = true ∧
    (sendStep timeout topic sendInit .timeoutFires).promise
      = .rejected ⟨timeoutMessage timeout topic, .transport⟩ ∧
    (sendStep timeout topic (sendStep timeout topic sendInit .timeoutFires)
        (.replyArrives msg)).listenerActive = false ∧
    (sendStep timeout topic (sendStep timeout topic sendInit .timeoutFires)
        (.replyArrives msg)).promise
      = (sendStep timeout topic sendInit .timeoutFires).promise := by
  refine ⟨rfl, rfl, rfl, rfl, rfl, rfl, rfl, ?_⟩
  have hset : (sendStep timeout topic sendInit .timeoutFires).promise
      = .rejected ⟨timeoutMessage timeout topic, .transport⟩ := rfl
  have hne : (sendStep timeout topic sendInit .timeoutFires).promise ≠ .pending := by
    rw [hset]; intro hc; exact PromiseState.noConfusion hc
  exact sendStep_promise_of_settled timeout topic _ (.replyArrives msg) hne

/-- C5: the settlement outcome of `send`: a reply with the error marker
rejects with the decoded error; otherwise an empty payload rejects with the
"no content produced" transport error; otherwise the promise resolves with
the deserialized payload; the timeout path rejects with the transport
timeout error whose message names the topic and the elapsed timeout; and the
timeout is `options.timeout`, else the per-instance default, else the global
default. -/
theorem send_settlement_outcomes (msg : ReplyMsg) (timeout defaultTimeout a b : Nat)
    (topic : String) (instTimeout : Option Nat) :
    (hasErrorHeader msg.headers = true →
      onReplyListener msg .pending = .rejected (errorHandler msg)) ∧
    (hasErrorHeader msg.headers = false → msg.content = "" →
      onReplyListener msg .pending = .rejected ⟨ERROR_NONE_RPC, .transport⟩) ∧
    (hasErrorHeader msg.headers = false → msg.content ≠ "" →
      onReplyListener msg .pending = .resolvedPayload msg.content) ∧
    (sendStep timeout topic sendInit .timeoutFires).promise
      = .rejected ⟨timeoutMessage timeout topic, .transport⟩ ∧
    timeoutMessage timeout topic
      = ERROR_TIMEOUT ++ ": " ++ toString timeout ++ " while sending to " ++ topic ∧
    pickTimeout (some a) instTimeout defaultTimeout = a ∧
    pickTimeout none (some b) defaultTimeout = b ∧
    pickTimeout none none defaultTimeout = defaultTimeout := by
  refine ⟨?_, ?_, ?_, rfl, rfl, rfl, rfl, rfl⟩
  · intro hh
    unfold onReplyListener
    cases hc : msg.content == "" <;> simp [hh, hc, settle]
  · intro hh hc
    unfold onReplyListener
    simp [hh, hc, settle]
  · intro hh hc
    unfold onReplyListener
    simp [hh, hc, settle]

/-- Witness for C5: a reply carrying the error marker rejects with the
decoded error, an empty error-free reply rejects with the "no content
produced" error, and a non-empty error-free reply resolves with its
payload, each at a concrete message. -/
theorem send_settlement_outcomes_witness :
    onReplyListener ⟨"c1", ⟨some "boom", some .application⟩, "\"x\""⟩ .pending
      = .rejected (errorHandler ⟨"c1", ⟨some "boom", some .application⟩, "\"x\""⟩) ∧
    onReplyListener ⟨"c2", ⟨none, none⟩, ""⟩ .pending
      = .rejected ⟨ERROR_NONE_RPC, .transport⟩ ∧
    onReplyListener ⟨"c3", ⟨none, none⟩, "\"ok\""⟩ .pending
      = .resolvedPayload "\"ok\"" := by
  refine ⟨?_, ?_, ?_⟩
  · exact (send_settlement_outcomes ⟨"c1", ⟨some "boom", some .application⟩, "\"x\""⟩
      0 0 0 0 "t" none).1 (by decide)
  · exact (send_settlement_outcomes ⟨"c2", ⟨none, none⟩, ""⟩
      0 0 0 0 "t" none).2.1 (by decide) (by decide)
  · exact (send_settlement_outcomes ⟨"c3", ⟨none, none⟩, "\"ok\""⟩
      0 0 0 0 "t" none).2.2.1 (by decide) (by decide)

/-- C2 counterexample: under the claim's stated semantics (non-wildcard
characters matched literally, a single-segment wildcard matching exactly one
dot-delimited segment) the pattern "orders.*" must not match the routing key
"ordersXcreated" — there is no dot — yet the code's matcher accepts it,
because the route's dot is compiled into the unescaped regex any-character. -/
theorem route_dot_not_literal :
    specResolveMatch "orders.*" "ordersXcreated" = false ∧
    routeMatches "orders.*" "ordersXcreated" = true := by
  exact ⟨by decide, by decide⟩

/-- C2 (amended): the single-segment wildcard compiles to one-or-more
non-dot characters and the multi-segment wildcard to `([^.]+.?)+`, but the
pattern's non-wildcard dots are compiled as the regex any-character (the
source never escapes them), so literal matching of non-wildcard characters
fails — "orders.*" also matches "ordersXcreated"; the three concrete
assertions hold as stated: "orders.created" matches "orders.*",
"orders.created.eu" matches "orders.#", and "orders" does not match
"orders.*". -/
theorem wildcard_matching_behaviour :
    routeMatches "orders.*" "orders.created" = true ∧
    routeMatches "orders.#" "orders.created.eu" = true ∧
    routeMatches "orders.*" "orders" = false ∧
    routeMatches "orders.*" "ordersXcreated" = true ∧
    specResolveMatch "orders.*" "ordersXcreated" = false := by
  refine ⟨by decide, by decide, by decide, by decide, by decide⟩

/-- C9: route resolution returns the first route in registration order whose
predicate accepts the topic — the returned route matches and every earlier
registered route does not; resolution returns no route exactly when no
registered route matches; and exact string equality alone makes the
predicate accept, independently of the compiled pattern. -/
theorem route_resolution_order (routes : List String) (topic : String) :
    (∀ r, getRouteByTopic routes topic = some r →
      ∃ pre post, routes = pre ++ r :: post ∧ routeMatches r topic = true ∧
        ∀ q ∈ pre, routeMatches q topic = false) ∧
    (getRouteByTopic routes topic = none ↔ ∀ r ∈ routes, routeMatches r topic = false) ∧
    (∀ r, r = topic → routeMatches r topic = true) := by
  refine ⟨?_, ?_, ?_⟩
  · intro r h
    exact find?_some_split _ routes r h
  · constructor
    · intro h r hr
      have := List.find?_eq_none.mp h r hr
      simpa using this
    · intro h
      apply List.find?_eq_none.mpr
      intro x hx
      simp [h x hx]
  · intro r h
    subst h
    simp [routeMatches]

/-- Witness for C9: resolving "orders.created" against the registered list
["billing.*", "orders.*"] returns "orders.*", the first match in
registration order, with the earlier pattern not matching. -/
theorem route_resolution_order_witness :
    ∃ pre post, ["billing.*", "orders.*"] = pre ++ "orders.*" :: post ∧
      routeMatches "orders.*" "orders.created" = true ∧
      ∀ q ∈ pre, routeMatches q "orders.created" = false := by
  exact (route_resolution_order ["billing.*", "orders.*"] "orders.created").1
    "orders.*" (by decide)

/-- C4: an inbound message whose routing key matches no registered route is
not dropped: the dispatch core replies to the message's reply-to address
with the message's correlation id and headers carrying the "no route"
transport error; and a caller of `send` whose reply consumer receives that
reply is rejected with the decoded no-route transport error — the
subsequent timeout firing changes nothing, whatever the reply payload. -/
theorem no_route_reply (routes : List String) (mws : List (InboundMsg → InboundMsg))
    (ics : List (String → InboundMsg → Option RMQError → String)) (msg : InboundMsg)
    (h : getRouteByTopic routes msg.routingKey = none) :
    handleInbound routes mws ics msg
      = .sendReplyToQueue msg.replyTo
          (jsonStringifyStr (intercept ics "" msg (some ⟨ERROR_NO_ROUTE, .transport⟩)))
          msg.correlationId ⟨some ERROR_NO_ROUTE, some .transport⟩ ∧
    ∀ timeout topic content,
      (sendRun timeout topic sendInit
          [.replyArrives (deliveredReply content msg.correlationId
              ⟨some ERROR_NO_ROUTE, some .transport⟩),
            .timeoutFires]).promise
        = .rejected ⟨ERROR_NO_ROUTE, .transport⟩ := by
  refine ⟨by simp [handleInbound, h, replyAction, buildError], ?_⟩
  intro timeout topic content
  have hL : onReplyListener
      (deliveredReply content msg.correlationId ⟨some ERROR_NO_ROUTE, some .transport⟩) .pending
      = .rejected ⟨ERROR_NO_ROUTE, .transport⟩ := by
    unfold onReplyListener deliveredReply
    cases hc : content == "" <;>
      simp [hasErrorHeader, errorHandler, ERROR_NO_ROUTE, hc, settle]
  have s1 : sendStep timeout topic sendInit
      (.replyArrives (deliveredReply content msg.correlationId
        ⟨some ERROR_NO_ROUTE, some .transport⟩))
      = ⟨.rejected ⟨ERROR_NO_ROUTE, .transport⟩, false, false⟩ := by
    show (⟨onReplyListener (deliveredReply content msg.correlationId
        ⟨some ERROR_NO_ROUTE, some .transport⟩) .pending, false, false⟩ : SendState) = _
    rw [hL]
  simp only [sendRun, List.foldl]
  rw [s1]
  rfl

/-- Witness for C4: a concrete message on routing key "billing.created"
matched against the single registered route "orders.*" produces the
no-route error reply, and a `send` waiting on that correlation id is
rejected with the no-route transport error rather than timing out. -/
theorem no_route_reply_witness :
    handleInbound ["orders.*"] [] [] ⟨"billing.created", "rq", "c1", "\"p\""⟩
      = .sendReplyToQueue "rq" (jsonStringifyStr "") "c1"
          ⟨some ERROR_NO_ROUTE, some .transport⟩ ∧
    (sendRun 30000 "billing.created" sendInit
        [.replyArrives (deliveredReply "\"\"" "c1" ⟨some ERROR_NO_ROUTE, some .transport⟩),
          .timeoutFires]).promise
      = .rejected ⟨ERROR_NO_ROUTE, .transport⟩ := by
  have h := no_route_reply ["orders.*"] [] [] ⟨"billing.created", "rq", "c1", "\"p\""⟩
    (by decide)
  exact ⟨h.1, h.2 30000 "billing.created" "\"\""⟩

/-- C6 counterexample: the claim says every `notify` publish carries no
correlation id and no reply-to header, but `...options` is spread after the
generated fields (lines 132-136), so caller-supplied options inject both
into the published properties. -/
theorem notify_options_inject_reply_fields :
    (notifyPublishProps "svc" 0 { correlationId := some "cid-x" }).correlationId
      = some "cid-x" ∧
    (notifyPublishProps "svc" 0 { replyTo := some "q-x" }).replyTo = some "q-x" :=
  ⟨rfl, rfl⟩

/-- C6 (amended): `notify` performs exactly one publish with the given
routing key and no other action — it never registers a reply waiter and
never starts a timer, even if a handler for the topic exists — and the
published properties carry no correlation id and no reply-to address
provided the caller-supplied options do not themselves contain those keys
(an options object containing them is spread over the generated fields). -/
theorem notify_fire_and_forget (exchangeName serviceName : String) (now : Nat)
    (topic message : String) (opts : PublishOptions) :
    notifyActions exchangeName serviceName now topic message opts
      = [.publishToExchange exchangeName topic (jsonStringifyStr message)
          (notifyPublishProps serviceName now opts)] ∧
    (opts.correlationId = none →
      (notifyPublishProps serviceName now opts).correlationId = none) ∧
    (opts.replyTo = none → (notifyPublishProps serviceName now opts).replyTo = none) ∧
    (∀ a ∈ notifyActions exchangeName serviceName now topic message opts,
      (∀ cid, a ≠ .registerReplyListener cid) ∧ (∀ d, a ≠ .startTimer d)) := by
  refine ⟨rfl, fun h => by simp [notifyPublishProps, h],
    fun h => by simp [notifyPublishProps, h], ?_⟩
  intro a ha
  simp [notifyActions] at ha
  subst ha
  exact ⟨fun cid => by simp, fun d => by simp⟩

/-- Witness for C6: with an empty options object, `notify` publishes with
no correlation id and no reply-to address. -/
theorem notify_fire_and_forget_witness :
    (notifyPublishProps "svc" 7 {}).correlationId = none ∧
    (notifyPublishProps "svc" 7 {}).replyTo = none :=
  ⟨(notify_fire_and_forget "ex" "svc" 7 "t" "m" {}).2.1 rfl,
    (notify_fire_and_forget "ex" "svc" 7 "t" "m" {}).2.2.1 rfl⟩

theorem initializationCheck_progress (flagAt : Nat → Bool) :
    ∀ k t fuel : Nat, flagAt (t + k) = true → k < fuel →
      ∃ u, initializationCheck flagAt fuel t = some u ∧ flagAt u = true := by
  intro k
  induction k with
  | zero =>
    intro t fuel h hlt
    obtain ⟨f, rfl⟩ : ∃ f, fuel = f + 1 := ⟨fuel - 1, by omega⟩
    have hf : flagAt t = true := by simpa using h
    exact ⟨t, by simp [initializationCheck, hf], hf⟩
  | succ k ih =>
    intro t fuel h hlt
    obtain ⟨f, rfl⟩ : ∃ f, fuel = f + 1 := ⟨fuel - 1, by omega⟩
    by_cases hf : flagAt t
    · exact ⟨t, by simp [initializationCheck, hf], hf⟩
    · have h2 : flagAt (t + 1 + k) = true := by
        rw [show t + 1 + k = t + (k + 1) from by omega]
        exact h
      obtain ⟨u, hu, hfu⟩ := ih (t + 1) f h2 (by omega)
      exact ⟨u, by simp [initializationCheck, hf, hu], hfu⟩

/-- C7: a gated call runs its actions only at a poll where the
initialization flag is observed set; while the flag is unset the barrier
re-checks after one more fixed delay (busy poll); when the flag is set at
the current poll the barrier opens immediately; and once the flag is set at
some poll within the explored window, the call proceeds rather than
failing. -/
theorem initialization_barrier (flagAt : Nat → Bool) (fuel t : Nat)
    (acts : List ClientAction) :
    (∀ u as, gatedActions flagAt fuel t acts = some (u, as) →
      flagAt u = true ∧ as = acts) ∧
    (flagAt t = false →
      initializationCheck flagAt (fuel + 1) t = initializationCheck flagAt fuel (t + 1)) ∧
    (flagAt t = true → initializationCheck flagAt (fuel + 1) t = some t) ∧
    (∀ k, flagAt (t + k) = true → k < fuel →
      ∃ u, initializationCheck flagAt fuel t = some u ∧ flagAt u = true) := by
  have hsome : ∀ fuel t u, initializationCheck flagAt fuel t = some u → flagAt u = true := by
    intro f
    induction f with
    | zero => intro t u h; simp [initializationCheck] at h
    | succ f ih =>
      intro t u h
      by_cases hf : flagAt t
      · simp [initializationCheck, hf] at h
        rw [← h]; exact hf
      · simp [initializationCheck, hf] at h
        exact ih _ _ h
  refine ⟨?_, ?_, ?_, ?_⟩
  · intro u as h
    unfold gatedActions at h
    cases hi : initializationCheck flagAt fuel t with
    | none => rw [hi] at h; simp at h
    | some v =>
      rw [hi] at h
      simp at h
      exact ⟨h.1 ▸ hsome fuel t v hi, h.2.symm⟩
  · intro hf; simp [initializationCheck, hf]
  · intro hf; simp [initializationCheck, hf]
  · intro k h hlt
    exact initializationCheck_progress flagAt k t fuel h hlt

/-- Witness for C7: with a flag that becomes set at the second poll, the
barrier opens within the explored window and the gated call proceeds at a
poll where the flag is observed set. -/
theorem initialization_barrier_witness :
    ∃ u, initializationCheck (fun n => decide (2 ≤ n)) 5 0 = some u ∧
      (fun n => decide (2 ≤ n)) u = true := by
  exact (initialization_barrier (fun n => decide (2 ≤ n)) 5 0 []).2.2.2 2
    (by decide) (by decide)

/-- C8 counterexample: the claim says re-attaching multiple times leaves
exactly one listener per reply-pipeline event kind, but two connect events
without an intervening disconnect invoke the attach operation twice and
leave two listeners per kind — `attachEmitters` adds with `.on` and never
removes. -/
theorem attach_twice_duplicates :
    connRun ⟨0, 0, 0⟩ [ConnEvent.connect, ConnEvent.connect] = ⟨2, 2, 2⟩ := rfl

/-- C8 (amended): `attachEmitters` is not idempotent — each call adds one
listener per event kind and `detachEmitters` removes them all — but under
every connect/disconnect sequence in which no connect fires while the
listeners are already attached, the listener count per kind is exactly one
after the sequence exactly when its last effective event is a connect. -/
theorem emitters_alternating (evs : List ConnEvent) (a : Bool)
    (h : alternates a evs = true) :
    connRun (emitterOf a) evs = emitterOf (attachedAfter a evs) := by
  induction evs generalizing a with
  | nil => rfl
  | cons e r ih =>
    cases e with
    | connect =>
      have ha : a = false := by
        cases a with
        | false => rfl
        | true => simp [alternates] at h
      subst ha
      have h2 : alternates true r = true := by simpa [alternates] using h
      show connRun (attachEmitters (emitterOf false)) r = _
      have hstep : attachEmitters (emitterOf false) = emitterOf true := rfl
      rw [hstep]
      exact ih true h2
    | disconnect =>
      have h2 : alternates false r = true := by simpa [alternates] using h
      show connRun (detachEmitters (emitterOf a)) r = _
      have hstep : detachEmitters (emitterOf a) = emitterOf false := rfl
      rw [hstep]
      exact ih false h2

/-- Witness for C8: across a reconnect cycle (connect, disconnect, connect)
starting detached, exactly one listener per event kind is registered. -/
theorem emitters_alternating_witness :
    connRun (emitterOf false) [ConnEvent.connect, ConnEvent.disconnect, ConnEvent.connect]
      = emitterOf true := by
  have h := emitters_alternating [ConnEvent.connect, ConnEvent.disconnect, ConnEvent.connect]
    false (by decide)
  simpa using h

/-- C10: the caller-supplied options are spread after the generated fields
in `send`'s publish properties, so options carrying a correlationId,
replyTo, appId or timestamp key override the generated values; the reply
waiter is nevertheless registered under the generated correlation id, so
with a caller-supplied correlation id different from the generated one the
echoed reply does not fire the registered once-listener. -/
theorem send_options_spread_overrides (exchangeName replyQueue serviceName : String)
    (now : Nat) (cid topic message c q appv : String) (ts defaultTimeout : Nat)
    (instTimeout : Option Nat) (opts : PublishOptions) :
    (opts.correlationId = some c →
      (sendPublishProps replyQueue serviceName now cid opts).correlationId = some c) ∧
    (opts.replyTo = some q →
      (sendPublishProps replyQueue serviceName now cid opts).replyTo = some q) ∧
    (opts.appId = some appv →
      (sendPublishProps replyQueue serviceName now cid opts).appId = some appv) ∧
    (opts.timestamp = some ts →
      (sendPublishProps replyQueue serviceName now cid opts).timestamp = some ts) ∧
    ClientAction.registerReplyListener cid
      ∈ sendActions exchangeName replyQueue serviceName now cid topic message
          instTimeout defaultTimeout opts ∧
    (opts.correlationId = some c → c ≠ cid → onceListenerFires cid c = false) := by
  refine ⟨fun h => by simp [sendPublishProps, h], fun h => by simp [sendPublishProps, h],
    fun h => by simp [sendPublishProps, h], fun h => by simp [sendPublishProps, h],
    by simp [sendActions], ?_⟩
  intro _ hne
  simp [onceListenerFires]
  exact fun he => hne he.symm

/-- Witness for C10: with options carrying all four keys, the published
properties take the caller's values over the generated ones, and the reply
echoed under the caller's correlation id does not fire the once-listener
registered under the generated id. -/
theorem send_options_spread_overrides_witness :
    (sendPublishProps "rq" "svc" 3 "gen" ⟨some 9, some "caller", some "q2", some "app2",
        some 7⟩).correlationId = some "caller" ∧
    (sendPublishProps "rq" "svc" 3 "gen" ⟨some 9, some "caller", some "q2", some "app2",
        some 7⟩).replyTo = some "q2" ∧
    onceListenerFires "gen" "caller" = false := by
  have h := send_options_spread_overrides "ex" "rq" "svc" 3 "gen" "t" "m" "caller" "q2"
    "app2" 7 30000 none ⟨some 9, some "caller", some "q2", some "app2", some 7⟩
  exact ⟨h.1 rfl, h.2.1 rfl, h.2.2.2.2.2 rfl (by decide)⟩

end Rmq
